import Mathlib

/-!
Verification of the tool-calling contract of the Snow-Wise repository
(src/Toolkit.py, src/Agent.py) against its natural-language specification.

The Python code is shallowly embedded: the Snowflake connection is an
abstract oracle (a function from query text to either a raised-exception
message or a result), pandas data frames are lists of rows of strings,
and each tool's `_run` method becomes a Lean function over that oracle.
-/

/-- A pandas data frame, as far as the tools observe it: a list of rows,
each row a list of textual cells. -/
abbrev DataFrame := List (List String)

/-- `result.iloc[0, 0]`: the first cell of the first row; pandas raises an
IndexError when the frame is empty, embedded as `Except.error`. -/
def iloc00 (df : DataFrame) : Except String String :=
  match df with
  | (x :: _) :: _ => Except.ok x
  | _ => Except.error "IndexError: single positional indexer is out-of-bounds"

instance {ε α : Type} [DecidableEq ε] [DecidableEq α] : DecidableEq (Except ε α) :=
  fun a b =>
    match a, b with
    | Except.ok x, Except.ok y =>
      match decEq x y with
      | isTrue h => isTrue (by rw [h])
      | isFalse h => isFalse (by intro he; cases he; exact h rfl)
    | Except.error x, Except.error y =>
      match decEq x y with
      | isTrue h => isTrue (by rw [h])
      | isFalse h => isFalse (by intro he; cases he; exact h rfl)
    | Except.ok _, Except.error _ => isFalse (by intro he; cases he)
    | Except.error _, Except.ok _ => isFalse (by intro he; cases he)

/-- Python `str.split(sep)` for a one-character separator: splitting never
yields the empty list (splitting the empty string yields one empty token). -/
def pySplitChar (sep : Char) : List Char → List (List Char)
  | [] => [[]]
  | c :: r =>
    if c = sep then [] :: pySplitChar sep r
    else
      match pySplitChar sep r with
      | t :: ts => (c :: t) :: ts
      | [] => [[c]]

/-- Python `table_names.split(",")` as used by the tool (no whitespace
stripping). -/
def pySplitComma (s : String) : List String :=
  (pySplitChar ',' s.data).map String.mk

/-- Concatenation of a list of strings (the repeated `+=` of the loop). -/
def concatStrings : List String → String
  | [] => ""
  | s :: ss => s ++ concatStrings ss

/-- The facet of the Snowflake connection exercised by
`InfoSnowflakeTableTool`: `readSql q` models
`pd.read_sql(q, conn).to_string()` — `Except.error` is a raised exception,
`Except.ok` the rendered schema text. -/
structure InfoConn where
  readSql : String → Except String String

/-- The loop body of `InfoSnowflakeTableTool._run` (src/Toolkit.py lines
39-47): for each table token `t`, issue `DESCRIBE TABLE t` and append
the section `Schema for table t:\n<schema>\n\n` to the accumulator; a
raised exception propagates (aborts the whole call). -/
def InfoSnowflakeTableTool.loop (conn : InfoConn) (output_schema : String) :
    List String → Except String String
  | [] => Except.ok output_schema
  | t :: ts =>
    match conn.readSql ("DESCRIBE TABLE " ++ t) with
    | Except.error e => Except.error e
    | Except.ok schema =>
        InfoSnowflakeTableTool.loop conn
          (output_schema ++ ("Schema for table " ++ t ++ ":\n" ++ schema ++ "\n\n")) ts

/-- `InfoSnowflakeTableTool._run` (src/Toolkit.py lines 32-47):
split the input on commas (Python `table_names.split(",")`, no
whitespace stripping) and accumulate one schema section per token. -/
def InfoSnowflakeTableTool.run (conn : InfoConn) (table_names : String) :
    Except String String :=
  InfoSnowflakeTableTool.loop conn "" (pySplitComma table_names)

/-- The schema section rendered for one table token. -/
def schemaSection (f : String → String) (t : String) : String :=
  "Schema for table " ++ t ++ ":\n" ++ f t ++ "\n\n"

theorem string_data_append (s t : String) : (s ++ t).data = s.data ++ t.data := by
  cases s; cases t; rfl

theorem string_append_assoc (a b c : String) : a ++ b ++ c = a ++ (b ++ c) := by
  apply String.ext
  simp only [string_data_append, List.append_assoc]

theorem string_empty_append (s : String) : "" ++ s = s := by
  apply String.ext
  simp only [string_data_append]
  rfl

theorem string_append_empty (s : String) : s ++ "" = s := by
  apply String.ext
  simp only [string_data_append]
  exact List.append_nil _

theorem infoLoop_all_ok (conn : InfoConn) (f : String → String) :
    ∀ (ts : List String) (acc : String),
      (∀ t ∈ ts, conn.readSql ("DESCRIBE TABLE " ++ t) = Except.ok (f t)) →
      InfoSnowflakeTableTool.loop conn acc ts
        = Except.ok (acc ++ concatStrings (ts.map (schemaSection f))) := by
  intro ts
  induction ts with
  | nil =>
    intro acc _
    simp only [InfoSnowflakeTableTool.loop, List.map_nil, concatStrings,
      string_append_empty]
  | cons t ts ih =>
    intro acc h
    have ht : conn.readSql ("DESCRIBE TABLE " ++ t) = Except.ok (f t) :=
      h t (List.mem_cons_self t ts)
    simp only [InfoSnowflakeTableTool.loop, ht]
    rw [ih _ (fun u hu => h u (List.mem_cons_of_mem t hu))]
    simp only [List.map_cons, concatStrings, schemaSection]
    rw [string_append_assoc]

theorem infoLoop_err (conn : InfoConn) :
    ∀ (ts : List String) (acc : String),
      (∃ t ∈ ts, ∃ e, conn.readSql ("DESCRIBE TABLE " ++ t) = Except.error e) →
      ∃ e, InfoSnowflakeTableTool.loop conn acc ts = Except.error e := by
  intro ts
  induction ts with
  | nil =>
    intro acc h
    rcases h with ⟨t, ht, _⟩
    exact absurd ht (List.not_mem_nil t)
  | cons t ts ih =>
    intro acc h
    cases hc : conn.readSql ("DESCRIBE TABLE " ++ t) with
    | error e =>
      exact ⟨e, by simp only [InfoSnowflakeTableTool.loop, hc]⟩
    | ok schema =>
      rcases h with ⟨u, hu, e, he⟩
      rcases List.mem_cons.mp hu with hu | hu
      · subst hu; rw [hc] at he; cases he
      · have := ih (acc ++ ("Schema for table " ++ t ++ ":\n" ++ schema ++ "\n\n"))
          ⟨u, hu, e, he⟩
        rcases this with ⟨e', he'⟩
        exact ⟨e', by simp only [InfoSnowflakeTableTool.loop, hc]; exact he'⟩

/-- C2: for every comma-separated table list, when every per-table
metadata request succeeds, the Schema Lookup Tool output is the single
concatenated blob with exactly one `Schema for table t:` section per
listed token `t`, in input order (`t` is the raw comma-separated token,
surrounding whitespace included, exactly as the code interpolates it). -/
theorem infoSnowflakeTableTool_sections (conn : InfoConn) (table_names : String)
    (f : String → String)
    (h : ∀ t ∈ pySplitComma table_names,
      conn.readSql ("DESCRIBE TABLE " ++ t) = Except.ok (f t)) :
    InfoSnowflakeTableTool.run conn table_names
      = Except.ok (concatStrings ((pySplitComma table_names).map (schemaSection f))) := by
  unfold InfoSnowflakeTableTool.run
  rw [infoLoop_all_ok conn f _ "" h, string_empty_append]

/-- Connection stub used in the witness below: every describe succeeds
with the fixed text `COLS`. -/
def infoConnOk : InfoConn := ⟨fun _ => Except.ok "COLS"⟩

theorem infoSnowflakeTableTool_sections_witness :
    InfoSnowflakeTableTool.run infoConnOk "a, b"
      = Except.ok "Schema for table a:\nCOLS\n\nSchema for table  b:\nCOLS\n\n" := by
  rw [infoSnowflakeTableTool_sections infoConnOk "a, b" (fun _ => "COLS")
    (fun t _ => rfl)]
  rfl

/-- C5: a failing metadata request for any one listed table aborts the
whole Schema Lookup call: the tool propagates the exception and produces
no output, including no sections for earlier tables that had already
succeeded. -/
theorem infoSnowflakeTableTool_abort (conn : InfoConn) (table_names : String)
    (h : ∃ t ∈ pySplitComma table_names, ∃ e,
      conn.readSql ("DESCRIBE TABLE " ++ t) = Except.error e) :
    ∃ e, InfoSnowflakeTableTool.run conn table_names = Except.error e :=
  infoLoop_err conn _ "" h

/-- Connection stub used in the witness below: table `a` succeeds,
every other table raises. -/
def infoConnMixed : InfoConn :=
  ⟨fun q => if q = "DESCRIBE TABLE a" then Except.ok "COLS" else Except.error "boom"⟩

theorem infoSnowflakeTableTool_abort_witness :
    ∃ e, InfoSnowflakeTableTool.run infoConnMixed "a,b" = Except.error e :=
  infoSnowflakeTableTool_abort infoConnMixed "a,b"
    ⟨"b", by decide, "boom", by decide⟩

/-- The facet of the Snowflake connection exercised by
`QuerySQLDataBaseTool`: the connection executes statements one after the
other; `exec k q` is the outcome of submitting text `q` as the `k`-th
execution on this connection (`Except.error` a raised exception,
`Except.ok` the fetched data frame), and `sfqid k` is the statement
identifier Snowflake assigns to the `k`-th execution. -/
structure ExecConn where
  exec : Nat → String → Except String DataFrame
  sfqid : Nat → String

/-- `QuerySQLDataBaseTool._run` (src/Toolkit.py lines 113-132), entered
with `n` executions already performed on the connection: inside one
try/except it first runs `pd.read_sql(query, conn)` (execution `n`),
then `cursor.execute(query)` (execution `n + 1`) and reads
`cursor.sfqid`; any exception is caught and turned into the pair
`("Error: " ++ e, none)`. Besides the returned pair, the embedding
records the list of `(execution index, statement text)` actually
dispatched to the connection. -/
def QuerySQLDataBaseTool.run (conn : ExecConn) (n : Nat) (query : String) :
    (DataFrame ⊕ String) × Option String × List (Nat × String) :=
  match conn.exec n query with
  | Except.error e => (Sum.inr ("Error: " ++ e), none, [(n, query)])
  | Except.ok results =>
    match conn.exec (n + 1) query with
    | Except.error e =>
        (Sum.inr ("Error: " ++ e), none, [(n, query), (n + 1, query)])
    | Except.ok _ =>
        (Sum.inl results, some (conn.sfqid (n + 1)),
         [(n, query), (n + 1, query)])

/-- C1: for every input query, a failing execution makes the Query
Execution Tool return the pair (error message text, none) instead of
raising — whether `pd.read_sql` or the cursor execution raised — and a
fully successful execution returns (tabular result, statement
identifier) whose identifier is non-empty, provided the connection
assigns non-empty statement identifiers (Snowflake query ids are
non-empty UUIDs; the code itself performs no emptiness check). -/
theorem querySQLDataBaseTool_result_contract (conn : ExecConn) (n : Nat)
    (query : String) (hid : ∀ k, conn.sfqid k ≠ "") :
    (∀ e, conn.exec n query = Except.error e →
      QuerySQLDataBaseTool.run conn n query
        = (Sum.inr ("Error: " ++ e), none, [(n, query)]))
    ∧ (∀ df e, conn.exec n query = Except.ok df →
        conn.exec (n + 1) query = Except.error e →
        QuerySQLDataBaseTool.run conn n query
          = (Sum.inr ("Error: " ++ e), none, [(n, query), (n + 1, query)]))
    ∧ (∀ df df₂, conn.exec n query = Except.ok df →
        conn.exec (n + 1) query = Except.ok df₂ →
        (QuerySQLDataBaseTool.run conn n query).1 = Sum.inl df
        ∧ ∃ id, (QuerySQLDataBaseTool.run conn n query).2.1 = some id
            ∧ id ≠ "") := by
  refine ⟨?_, ?_, ?_⟩
  · intro e he
    simp only [QuerySQLDataBaseTool.run, he]
  · intro df e h1 h2
    simp only [QuerySQLDataBaseTool.run, h1, h2]
  · intro df df₂ h1 h2
    unfold QuerySQLDataBaseTool.run
    rw [h1, h2]
    exact ⟨rfl, conn.sfqid (n + 1), rfl, hid (n + 1)⟩

/-- Connection stub used in witnesses below: every execution succeeds
with a one-cell frame and the fixed statement id `stub-id-123`. -/
def execConnOk : ExecConn :=
  ⟨fun _ _ => Except.ok [["1"]], fun _ => "stub-id-123"⟩

theorem querySQLDataBaseTool_result_contract_witness :
    (QuerySQLDataBaseTool.run execConnOk 0 "SELECT 1").1 = Sum.inl [["1"]]
    ∧ ∃ id, (QuerySQLDataBaseTool.run execConnOk 0 "SELECT 1").2.1 = some id
        ∧ id ≠ "" :=
  (querySQLDataBaseTool_result_contract execConnOk 0 "SELECT 1"
    (fun _ => by show ("stub-id-123" : String) ≠ ""; decide)).2.2
    [["1"]] [["1"]] rfl rfl

/-- C6: for every input query — the statement kind is never inspected,
so this includes CREATE, UPDATE, DELETE, DROP — the Query Execution Tool
always dispatches the input string unchanged to the connection: the
dispatch list is non-empty, its first entry is the verbatim input, and
every dispatched statement text equals the input. -/
theorem querySQLDataBaseTool_no_statement_guard (conn : ExecConn) (n : Nat)
    (query : String) :
    (QuerySQLDataBaseTool.run conn n query).2.2.head? = some (n, query)
    ∧ ∀ p ∈ (QuerySQLDataBaseTool.run conn n query).2.2, p.2 = query := by
  unfold QuerySQLDataBaseTool.run
  cases conn.exec n query with
  | error e =>
    refine ⟨rfl, ?_⟩
    intro p hp
    simp only [List.mem_singleton] at hp
    rw [hp]
  | ok results =>
    cases conn.exec (n + 1) query with
    | error e =>
      refine ⟨rfl, ?_⟩
      intro p hp
      rcases List.mem_cons.mp hp with h | h
      · rw [h]
      · simp only [List.mem_singleton] at h
        rw [h]
    | ok df₂ =>
      refine ⟨rfl, ?_⟩
      intro p hp
      rcases List.mem_cons.mp hp with h | h
      · rw [h]
      · simp only [List.mem_singleton] at h
        rw [h]

/-- C9: on a successful invocation the Query Execution Tool submits the
statement to the connection twice — once for the tabular result, once
more through a cursor — and the identifier it returns is the one of the
second execution; when the connection assigns the two executions
distinct identifiers, the returned identifier therefore does not name
the execution that produced the returned rows. -/
theorem querySQLDataBaseTool_double_execution (conn : ExecConn) (n : Nat)
    (query : String) (df df₂ : DataFrame)
    (h1 : conn.exec n query = Except.ok df)
    (h2 : conn.exec (n + 1) query = Except.ok df₂)
    (hdist : conn.sfqid (n + 1) ≠ conn.sfqid n) :
    (QuerySQLDataBaseTool.run conn n query).2.2 = [(n, query), (n + 1, query)]
    ∧ (QuerySQLDataBaseTool.run conn n query).2.1 = some (conn.sfqid (n + 1))
    ∧ (QuerySQLDataBaseTool.run conn n query).2.1 ≠ some (conn.sfqid n) := by
  unfold QuerySQLDataBaseTool.run
  rw [h1, h2]
  refine ⟨rfl, rfl, ?_⟩
  intro h
  exact hdist (Option.some.inj h)

/-- Connection stub used in the witness below: executions succeed and
the `k`-th execution is assigned the identifier `toString k`. -/
def execConnCounted : ExecConn :=
  ⟨fun _ _ => Except.ok [], fun k => toString k⟩

theorem querySQLDataBaseTool_double_execution_witness :
    (QuerySQLDataBaseTool.run execConnCounted 0 "SELECT 1").2.2
      = [(0, "SELECT 1"), (1, "SELECT 1")]
    ∧ (QuerySQLDataBaseTool.run execConnCounted 0 "SELECT 1").2.1
      = some (execConnCounted.sfqid 1)
    ∧ (QuerySQLDataBaseTool.run execConnCounted 0 "SELECT 1").2.1
      ≠ some (execConnCounted.sfqid 0) :=
  querySQLDataBaseTool_double_execution execConnCounted 0 "SELECT 1" [] []
    rfl rfl (by decide)

/-- `query.replace('"', '\\"')` from `QuerySQLCheckerTool._run`: each
double-quote character becomes backslash double-quote (single-character
needle, so Python replace is a per-character map). -/
def pyReplaceDQ : List Char → List Char
  | [] => []
  | c :: r =>
    if c = '\x22' then '\\' :: '\x22' :: pyReplaceDQ r
    else c :: pyReplaceDQ r

/-- `.replace("'", "\\'")`: each single-quote character becomes backslash
single-quote. -/
def pyReplaceSQ : List Char → List Char
  | [] => []
  | c :: r =>
    if c = '\x27' then '\\' :: '\x27' :: pyReplaceSQ r
    else c :: pyReplaceSQ r

/-- `escaped_query` of `QuerySQLCheckerTool._run` (src/Toolkit.py line 88):
the double-quote replacement followed by the single-quote replacement. -/
def escapedQuery (query : String) : String :=
  String.mk (pyReplaceSQ (pyReplaceDQ query.data))

/-- The literal class attribute `QuerySQLCheckerTool.template`
(src/Toolkit.py lines 55-71), braces written as \x7b/\x7d. -/
def QuerySQLCheckerTool.template : String :=
  "\n    \x7bquery\x7d\n    Double check the \x7bdialect\x7d query above for common mistakes, including:\n    - Using NOT IN with NULL values\n    - Using UNION when UNION ALL should have been used\n    - Using BETWEEN for exclusive ranges\n    - Data type mismatch in predicates\n    - Properly quoting identifiers\n    - Using the correct number of arguments for functions\n    - Casting to the correct data type\n    - Using the proper columns for joins\n\n    If there are any of the above mistakes, rewrite the query. If there are no mistakes, just reproduce the original query.\n\n    Output the final SQL query only.\n\n    SQL Query: "

/-- The template text before the query field. -/
def templatePre : String := "\n    "

/-- The template text between the query field and the dialect field. -/
def templateMid : String := "\n    Double check the "

/-- The template text after the dialect field. -/
def templateTail : String :=
  " query above for common mistakes, including:\n    - Using NOT IN with NULL values\n    - Using UNION when UNION ALL should have been used\n    - Using BETWEEN for exclusive ranges\n    - Data type mismatch in predicates\n    - Properly quoting identifiers\n    - Using the correct number of arguments for functions\n    - Casting to the correct data type\n    - Using the proper columns for joins\n\n    If there are any of the above mistakes, rewrite the query. If there are no mistakes, just reproduce the original query.\n\n    Output the final SQL query only.\n\n    SQL Query: "

/-- The value `str.format` substitutes for a replacement field of the
call `template.format(query=..., dialect=...)`; an unknown field name
raises a KeyError. -/
def pyFieldValue (name : List Char) (qv d : String) : Except String (List Char) :=
  if name = "query".data then Except.ok qv.data
  else if name = "dialect".data then Except.ok d.data
  else Except.error "KeyError in str.format: unknown field name"

/-- Scan a replacement field after its opening brace: the field name is
everything up to the next closing brace; `none` when the closing brace
is missing. -/
def splitField (l : List Char) : Option (List Char × List Char) :=
  match l.dropWhile (fun d => d ≠ '\x7d') with
  | _ :: r => some (l.takeWhile (fun d => d ≠ '\x7d'), r)
  | [] => none

theorem dropWhile_length_le (p : Char → Bool) :
    ∀ l : List Char, (l.dropWhile p).length ≤ l.length := by
  intro l
  induction l with
  | nil => exact Nat.le_refl _
  | cons c r ih =>
    simp only [List.dropWhile]
    cases p c with
    | true => exact Nat.le_trans ih (Nat.le_succ _)
    | false => exact Nat.le_refl _

theorem splitField_length {l : List Char} {n r : List Char}
    (h : splitField l = some (n, r)) : r.length < l.length := by
  unfold splitField at h
  cases hd : l.dropWhile (fun d => d ≠ '\x7d') with
  | nil => rw [hd] at h; cases h
  | cons a r2 =>
    rw [hd] at h
    cases h
    have hle : (l.dropWhile (fun d => d ≠ '\x7d')).length ≤ l.length :=
      dropWhile_length_le _ l
    rw [hd] at hle
    simp only [List.length_cons] at hle
    omega

/-- Python `str.format` restricted to what `template.format(query=...,
dialect=...)` exercises: the TEMPLATE is scanned for brace-delimited
replacement fields (doubled braces are literal braces, an unmatched
single brace is a ValueError), and each field is replaced by the
corresponding argument value spliced in VERBATIM — `str.format` never
rescans substituted values, so braces inside an argument value pass
through untouched. Field conversions/format specs (`!`, `:`), which this
template does not use, are not modelled. -/
def pyFormat (qv d : String) (l : List Char) : Except String (List Char) :=
  match l with
  | [] => Except.ok []
  | c :: r =>
    if c = '\x7b' then
      match r with
      | c2 :: r2 =>
        if c2 = '\x7b' then
          match pyFormat qv d r2 with
          | Except.error e => Except.error e
          | Except.ok t => Except.ok ('\x7b' :: t)
        else
          match hs : splitField (c2 :: r2) with
          | some (name, r3) =>
            match pyFieldValue name qv d with
            | Except.error e => Except.error e
            | Except.ok v =>
              match pyFormat qv d r3 with
              | Except.error e => Except.error e
              | Except.ok t => Except.ok (v ++ t)
          | none =>
            Except.error "ValueError in str.format: single open brace"
      | [] => Except.error "ValueError in str.format: single open brace"
    else if c = '\x7d' then
      match r with
      | c2 :: r2 =>
        if c2 = '\x7d' then
          match pyFormat qv d r2 with
          | Except.error e => Except.error e
          | Except.ok t => Except.ok ('\x7d' :: t)
        else Except.error "ValueError in str.format: single close brace"
      | [] => Except.error "ValueError in str.format: single close brace"
    else
      match pyFormat qv d r with
      | Except.error e => Except.error e
      | Except.ok t => Except.ok (c :: t)
termination_by l.length
decreasing_by
  · simp only [List.length_cons]; omega
  · have := splitField_length hs
    simp only [List.length_cons] at this ⊢
    omega
  · simp only [List.length_cons]; omega
  · simp only [List.length_cons]; omega

theorem pyFormat_nil (qv d : String) : pyFormat qv d [] = Except.ok [] := by
  simp [pyFormat]

theorem pyFormat_plain_cons (qv d : String) (c : Char) (r : List Char)
    (h1 : ¬ c = '\x7b') (h2 : ¬ c = '\x7d') :
    pyFormat qv d (c :: r)
      = match pyFormat qv d r with
        | Except.error e => Except.error e
        | Except.ok t => Except.ok (c :: t) := by
  rw [pyFormat.eq_def]
  simp only [if_neg h1, if_neg h2]

theorem pyFormat_clean_append (qv d : String) :
    ∀ (s r : List Char), (∀ c ∈ s, ¬ c = '\x7b' ∧ ¬ c = '\x7d') →
    pyFormat qv d (s ++ r)
      = match pyFormat qv d r with
        | Except.error e => Except.error e
        | Except.ok t => Except.ok (s ++ t) := by
  intro s
  induction s with
  | nil =>
    intro r _
    simp only [List.nil_append]
    cases pyFormat qv d r <;> rfl
  | cons c s ih =>
    intro r h
    have hc := h c (List.mem_cons_self c s)
    rw [List.cons_append, pyFormat_plain_cons qv d c _ hc.1 hc.2,
      ih r (fun u hu => h u (List.mem_cons_of_mem c hu))]
    cases pyFormat qv d r with
    | error e => rfl
    | ok t => simp only [List.cons_append]

theorem pyFormat_query_step (qv d : String) (r : List Char) :
    pyFormat qv d ('\x7b' :: ('q' :: 'u' :: 'e' :: 'r' :: 'y' :: '\x7d' :: r))
      = match pyFormat qv d r with
        | Except.error e => Except.error e
        | Except.ok t => Except.ok (qv.data ++ t) := by
  rw [pyFormat.eq_def]
  rfl

theorem pyFormat_dialect_step (qv d : String) (r : List Char) :
    pyFormat qv d
      ('\x7b' :: ('d' :: 'i' :: 'a' :: 'l' :: 'e' :: 'c' :: 't' :: '\x7d' :: r))
      = match pyFormat qv d r with
        | Except.error e => Except.error e
        | Except.ok t => Except.ok (d.data ++ t) := by
  rw [pyFormat.eq_def]
  rfl

set_option maxRecDepth 4000 in
theorem templatePre_clean :
    ∀ c ∈ templatePre.data, ¬ c = '\x7b' ∧ ¬ c = '\x7d' := by decide

set_option maxRecDepth 4000 in
theorem templateMid_clean :
    ∀ c ∈ templateMid.data, ¬ c = '\x7b' ∧ ¬ c = '\x7d' := by decide

set_option maxRecDepth 10000 in
theorem templateTail_clean :
    ∀ c ∈ templateTail.data, ¬ c = '\x7b' ∧ ¬ c = '\x7d' := by decide

/-- Formatting the checker template substitutes the two replacement
fields and keeps every other template character: the argument values are
spliced in verbatim, whatever characters they contain. -/
theorem pyFormat_template (qv d : String) :
    pyFormat qv d QuerySQLCheckerTool.template.data
      = Except.ok (templatePre.data ++ (qv.data
          ++ (templateMid.data ++ (d.data ++ templateTail.data)))) := by
  have hdata : QuerySQLCheckerTool.template.data
      = templatePre.data ++ ('\x7b' :: ('q' :: 'u' :: 'e' :: 'r' :: 'y' :: '\x7d'
          :: (templateMid.data ++ ('\x7b' :: ('d' :: 'i' :: 'a' :: 'l' :: 'e'
          :: 'c' :: 't' :: '\x7d' :: templateTail.data))))) := rfl
  have htail : pyFormat qv d templateTail.data = Except.ok templateTail.data := by
    have h := pyFormat_clean_append qv d templateTail.data [] templateTail_clean
    rw [List.append_nil] at h
    rw [h, pyFormat_nil]
    simp
  rw [hdata,
    pyFormat_clean_append qv d templatePre.data _ templatePre_clean,
    pyFormat_query_step,
    pyFormat_clean_append qv d templateMid.data _ templateMid_clean,
    pyFormat_dialect_step, htail]

/-- The facet of the Snowflake connection exercised by the Cortex
completion path: `readSql q` models `pd.read_sql(q, conn)` for the
completion request (`Except.error` a raised exception, `Except.ok` the
fetched frame, whose single cell is the endpoint response). -/
structure CortexConn where
  readSql : String → Except String DataFrame

/-- The fixed text before the prompt literal in the completion request
`SELECT SNOWFLAKE.CORTEX.COMPLETE('snowflake-arctic', '<prompt>');`. -/
def cortexPre : String := "SELECT SNOWFLAKE.CORTEX.COMPLETE(\x27snowflake-arctic\x27, \x27"

/-- The fixed text after the prompt literal in the completion request. -/
def cortexPost : String := "\x27);"

/-- The f-string `f"SELECT SNOWFLAKE.CORTEX.COMPLETE('snowflake-arctic',
'{prompt}');"` (src/Toolkit.py line 90 and src/Agent.py line 19). -/
def cortexQueryOf (prompt : String) : String :=
  cortexPre ++ prompt ++ cortexPost

/-- The template text after the substituted query once the dialect field
has been filled with `Snowflake`. -/
def templateBody : String := templateMid ++ "Snowflake" ++ templateTail

/-- The prompt the checker builds for an input query:
`template.format(query=escaped_query, dialect="Snowflake")`. -/
def QuerySQLCheckerTool.promptOf (query : String) : String :=
  templatePre ++ escapedQuery query ++ templateBody

/-- `QuerySQLCheckerTool._run` (src/Toolkit.py lines 81-95): escape
quotes in the query, format the template with the escaped query and the
`Snowflake` dialect, wrap the prompt in the Cortex completion request,
run it via `pd.read_sql`, and return `result.iloc[0, 0]`. Besides the
returned value, the embedding records the list of queries actually
issued to the connection. -/
def QuerySQLCheckerTool.run (conn : CortexConn) (query : String) :
    Except String String × List String :=
  match pyFormat (escapedQuery query) "Snowflake"
      QuerySQLCheckerTool.template.data with
  | Except.error e => (Except.error e, [])
  | Except.ok promptChars =>
    match conn.readSql (cortexQueryOf (String.mk promptChars)) with
    | Except.error e => (Except.error e, [cortexQueryOf (String.mk promptChars)])
    | Except.ok result => (iloc00 result, [cortexQueryOf (String.mk promptChars)])

theorem promptOf_data (query : String) :
    (QuerySQLCheckerTool.promptOf query).data
      = templatePre.data ++ ((escapedQuery query).data
          ++ (templateMid.data ++ ("Snowflake".data ++ templateTail.data))) := by
  simp only [QuerySQLCheckerTool.promptOf, templateBody, string_data_append,
    List.append_assoc]

/-- Reduction of the checker run: formatting never fails, and the one
query issued to the connection is the Cortex completion request built
from the prompt. -/
theorem checkerRun_eq (conn : CortexConn) (query : String) :
    QuerySQLCheckerTool.run conn query
      = (match conn.readSql (cortexQueryOf (QuerySQLCheckerTool.promptOf query)) with
         | Except.error e =>
             (Except.error e,
              [cortexQueryOf (QuerySQLCheckerTool.promptOf query)])
         | Except.ok result =>
             (iloc00 result,
              [cortexQueryOf (QuerySQLCheckerTool.promptOf query)])) := by
  unfold QuerySQLCheckerTool.run
  rw [pyFormat_template]
  have hmk : String.mk (templatePre.data ++ ((escapedQuery query).data
      ++ (templateMid.data ++ ("Snowflake".data ++ templateTail.data))))
      = QuerySQLCheckerTool.promptOf query := by
    apply String.ext
    rw [promptOf_data]
  rw [← hmk]

/-- C7: for every input query, the Query Checker Tool's output is the
completion endpoint's single text response, returned verbatim — no
retry and no shape validation, even when the response is empty — and
exactly one completion request is issued. -/
theorem querySQLCheckerTool_passthrough (conn : CortexConn) (query resp : String)
    (h : conn.readSql (cortexQueryOf (QuerySQLCheckerTool.promptOf query))
      = Except.ok [[resp]]) :
    QuerySQLCheckerTool.run conn query
      = (Except.ok resp, [cortexQueryOf (QuerySQLCheckerTool.promptOf query)]) := by
  rw [checkerRun_eq, h]
  rfl


/-- Connection stub used in witnesses below: every completion request
succeeds with the single-cell response `OK`. -/
def cortexConnOk : CortexConn := ⟨fun _ => Except.ok [["OK"]]⟩

theorem querySQLCheckerTool_passthrough_witness :
    QuerySQLCheckerTool.run cortexConnOk "SELECT 1"
      = (Except.ok "OK",
         [cortexQueryOf (QuerySQLCheckerTool.promptOf "SELECT 1")]) :=
  querySQLCheckerTool_passthrough cortexConnOk "SELECT 1" "OK" rfl

/-- Scanner for the body of a Snowflake single-quoted string literal,
started just after the opening quote: a backslash escapes the following
character, a doubled quote is an escaped quote, a lone quote closes the
literal (returning the characters after it), and exhausting the input
means the literal is unterminated. -/
def snowLitScan : List Char → Option (List Char)
  | [] => none
  | c :: r =>
    if c = '\\' then
      match r with
      | [] => none
      | _ :: r2 => snowLitScan r2
    else if c = '\x27' then
      match r with
      | c2 :: r2 => if c2 = '\x27' then snowLitScan r2 else some (c2 :: r2)
      | [] => some []
    else snowLitScan r

/-- The prompt text embeds as one syntactically valid string literal in
the completion request exactly when scanning it followed by the closing
quote and the trailing `);` closes the literal precisely there. -/
def embedsAsOneLiteral (prompt : String) : Prop :=
  snowLitScan (prompt.data ++ ['\x27', ')', ';']) = some [')', ';']

instance (prompt : String) : Decidable (embedsAsOneLiteral prompt) := by
  unfold embedsAsOneLiteral
  infer_instance

theorem snowLitScan_clean_append (r : List Char) :
    ∀ s : List Char, (∀ c ∈ s, ¬ c = '\\' ∧ ¬ c = '\x27') →
    snowLitScan (s ++ r) = snowLitScan r := by
  intro s
  induction s with
  | nil => intro _; rw [List.nil_append]
  | cons c s ih =>
    intro h
    have hc := h c (List.mem_cons_self c s)
    rw [List.cons_append, snowLitScan.eq_def]
    simp only [if_neg hc.1, if_neg hc.2]
    exact ih (fun u hu => h u (List.mem_cons_of_mem c hu))

theorem pyReplaceDQ_dq (r : List Char) :
    pyReplaceDQ ('\x22' :: r) = '\\' :: '\x22' :: pyReplaceDQ r := by
  rw [pyReplaceDQ, if_pos rfl]

theorem pyReplaceDQ_ne (c : Char) (r : List Char) (h : ¬ c = '\x22') :
    pyReplaceDQ (c :: r) = c :: pyReplaceDQ r := by
  rw [pyReplaceDQ, if_neg h]

theorem pyReplaceSQ_sq (r : List Char) :
    pyReplaceSQ ('\x27' :: r) = '\\' :: '\x27' :: pyReplaceSQ r := by
  rw [pyReplaceSQ, if_pos rfl]

theorem pyReplaceSQ_ne (c : Char) (r : List Char) (h : ¬ c = '\x27') :
    pyReplaceSQ (c :: r) = c :: pyReplaceSQ r := by
  rw [pyReplaceSQ, if_neg h]

theorem snowLitScan_bs (c : Char) (r : List Char) :
    snowLitScan ('\\' :: c :: r) = snowLitScan r := by
  rw [snowLitScan.eq_def]
  rfl

theorem snowLitScan_plain (c : Char) (r : List Char)
    (h1 : ¬ c = '\\') (h2 : ¬ c = '\x27') :
    snowLitScan (c :: r) = snowLitScan r := by
  rw [snowLitScan.eq_def]
  simp only [if_neg h1, if_neg h2]

theorem snowLitScan_escaped_append (r : List Char) :
    ∀ q : List Char, '\\' ∉ q →
    snowLitScan (pyReplaceSQ (pyReplaceDQ q) ++ r) = snowLitScan r := by
  intro q
  induction q with
  | nil => intro _; rw [pyReplaceDQ, pyReplaceSQ, List.nil_append]
  | cons c q ih =>
    intro h
    have hc : ¬ c = '\\' := fun hcc => h (hcc ▸ List.mem_cons_self c q)
    have hq : '\\' ∉ q := fun hm => h (List.mem_cons_of_mem c hm)
    by_cases hdq : c = '\x22'
    · subst hdq
      rw [pyReplaceDQ_dq, pyReplaceSQ_ne _ _ (by decide),
        pyReplaceSQ_ne _ _ (by decide), List.cons_append, List.cons_append,
        snowLitScan_bs]
      exact ih hq
    · by_cases hsq : c = '\x27'
      · subst hsq
        rw [pyReplaceDQ_ne _ _ (by decide), pyReplaceSQ_sq, List.cons_append,
          List.cons_append, snowLitScan_bs]
        exact ih hq
      · rw [pyReplaceDQ_ne _ _ hdq, pyReplaceSQ_ne _ _ hsq, List.cons_append,
          snowLitScan_plain c _ hc hsq]
        exact ih hq

set_option maxRecDepth 4000 in
theorem templatePre_noquote :
    ∀ c ∈ templatePre.data, ¬ c = '\\' ∧ ¬ c = '\x27' := by decide

set_option maxRecDepth 100000 in
theorem templateBody_noquote :
    ∀ c ∈ templateBody.data, ¬ c = '\\' ∧ ¬ c = '\x27' := by decide

theorem escapedQuery_data (query : String) :
    (escapedQuery query).data = pyReplaceSQ (pyReplaceDQ query.data) := rfl

theorem promptOf_data_body (query : String) :
    (QuerySQLCheckerTool.promptOf query).data ++ ['\x27', ')', ';']
      = templatePre.data ++ ((escapedQuery query).data
          ++ (templateBody.data ++ ['\x27', ')', ';'])) := by
  simp only [QuerySQLCheckerTool.promptOf, string_data_append, List.append_assoc]

/-- C3 (amended): for any input query that contains a single-quote or
double-quote character but NO backslash, the escaping step makes the
constructed prompt interpolate into the completion request as one
syntactically valid string literal. (As stated over all quote-containing
inputs the claim fails: an input already containing backslash-quote is
escaped to backslash-backslash-quote, whose bare quote closes the
literal early — see the counterexample.) -/
theorem querySQLCheckerTool_escaping (query : String)
    (hq : '\x27' ∈ query.data ∨ '\x22' ∈ query.data)
    (hbs : '\\' ∉ query.data) :
    (cortexQueryOf (QuerySQLCheckerTool.promptOf query)).data
      = cortexPre.data ++ ((QuerySQLCheckerTool.promptOf query).data
          ++ ['\x27', ')', ';'])
    ∧ embedsAsOneLiteral (QuerySQLCheckerTool.promptOf query) := by
  constructor
  · simp only [cortexQueryOf, string_data_append, List.append_assoc]
    rfl
  · unfold embedsAsOneLiteral
    rw [promptOf_data_body, snowLitScan_clean_append _ _ templatePre_noquote,
      escapedQuery_data, snowLitScan_escaped_append _ query.data hbs,
      snowLitScan_clean_append _ _ templateBody_noquote]
    rfl

theorem querySQLCheckerTool_escaping_witness :
    ((cortexQueryOf (QuerySQLCheckerTool.promptOf "SELECT \x22x\x22")).data
      = cortexPre.data ++ ((QuerySQLCheckerTool.promptOf "SELECT \x22x\x22").data
          ++ ['\x27', ')', ';']))
    ∧ embedsAsOneLiteral (QuerySQLCheckerTool.promptOf "SELECT \x22x\x22") :=
  querySQLCheckerTool_escaping "SELECT \x22x\x22" (Or.inr (by decide)) (by decide)

set_option maxRecDepth 100000 in
/-- C3 counterexample: the two-character input backslash-quote contains a
single quote, yet its escaped form is backslash-backslash-quote, so the
prompt does NOT embed as one valid string literal — the bare quote closes
the literal before the template text. -/
theorem querySQLCheckerTool_escaping_cex :
    ('\x27' ∈ ("\\\x27" : String).data ∨ '\x22' ∈ ("\\\x27" : String).data)
    ∧ ¬ embedsAsOneLiteral (QuerySQLCheckerTool.promptOf "\\\x27") :=
  ⟨Or.inl (by decide), by decide⟩

/-- Recover the prompt argument from a completion request built by
`cortexQueryOf`: drop the fixed prefix and the fixed suffix. -/
def stripCortex (s : String) : String :=
  String.mk ((s.data.drop cortexPre.data.length).take
    (s.data.length - cortexPre.data.length - cortexPost.data.length))

theorem stripCortex_queryOf (p : String) :
    stripCortex (cortexQueryOf p) = p := by
  unfold stripCortex cortexQueryOf
  have hdata : (cortexPre ++ p ++ cortexPost).data
      = cortexPre.data ++ (p.data ++ cortexPost.data) := by
    simp only [string_data_append, List.append_assoc]
  rw [hdata, List.drop_left,
    show (cortexPre.data ++ (p.data ++ cortexPost.data)).length
        - cortexPre.data.length - cortexPost.data.length = p.data.length from by
      simp only [List.length_append]; omega,
    List.take_left]

/-- The stubbed completion endpoint of the idempotence property: it
answers every prompt with the (already-correct) query text embedded in
the prompt, i.e. the text between the fixed template prefix and the
fixed template body. -/
def stubEndpoint (p : String) : String :=
  String.mk ((p.data.drop templatePre.data.length).take
    (p.data.length - templatePre.data.length - templateBody.data.length))

theorem stubEndpoint_prompt (q : String) :
    stubEndpoint (QuerySQLCheckerTool.promptOf q) = escapedQuery q := by
  unfold stubEndpoint QuerySQLCheckerTool.promptOf
  have hdata : (templatePre ++ escapedQuery q ++ templateBody).data
      = templatePre.data ++ ((escapedQuery q).data ++ templateBody.data) := by
    simp only [string_data_append, List.append_assoc]
  rw [hdata, List.drop_left,
    show (templatePre.data ++ ((escapedQuery q).data ++ templateBody.data)).length
        - templatePre.data.length - templateBody.data.length
        = (escapedQuery q).data.length from by
      simp only [List.length_append]; omega,
    List.take_left]

/-- A Cortex connection whose completion endpoint is the pure function
`f` from prompt to response: every completion request succeeds and
returns the single-cell frame holding the response. -/
def connOfEndpoint (f : String → String) : CortexConn :=
  ⟨fun s => Except.ok [[f (stripCortex s)]]⟩

/-- One application of the Query Checker Tool against the stubbed
completion endpoint. -/
def checkOnce (query : String) : Except String String :=
  (QuerySQLCheckerTool.run (connOfEndpoint stubEndpoint) query).1

theorem checkOnce_eq (query : String) :
    checkOnce query = Except.ok (escapedQuery query) := by
  unfold checkOnce
  rw [checkerRun_eq]
  show (iloc00 [[stubEndpoint (stripCortex
    (cortexQueryOf (QuerySQLCheckerTool.promptOf query)))]], _).1 = _
  rw [stripCortex_queryOf, stubEndpoint_prompt]
  rfl

theorem pyReplaceDQ_id (l : List Char) (h : '\x22' ∉ l) : pyReplaceDQ l = l := by
  induction l with
  | nil => rfl
  | cons c r ih =>
    rw [pyReplaceDQ_ne c r (fun hc => h (hc ▸ List.mem_cons_self c r)),
      ih (fun hm => h (List.mem_cons_of_mem c hm))]

theorem pyReplaceSQ_id (l : List Char) (h : '\x27' ∉ l) : pyReplaceSQ l = l := by
  induction l with
  | nil => rfl
  | cons c r ih =>
    rw [pyReplaceSQ_ne c r (fun hc => h (hc ▸ List.mem_cons_self c r)),
      ih (fun hm => h (List.mem_cons_of_mem c hm))]

theorem escapedQuery_id (query : String)
    (h1 : '\x27' ∉ query.data) (h2 : '\x22' ∉ query.data) :
    escapedQuery query = query := by
  unfold escapedQuery
  rw [pyReplaceDQ_id _ h2, pyReplaceSQ_id _ h1]

/-- C8 (amended): with the completion endpoint stubbed to return the
query embedded in the prompt, the Query Checker Tool is idempotent on
queries that contain no quote character: one application returns the
query unchanged, and re-applying the tool to its own output returns the
same text. (On quote-containing queries the claim fails, because the
tool embeds the ESCAPED query in the prompt, so the stub returns the
escaped text and a second application escapes it again — see the
counterexample.) -/
theorem querySQLCheckerTool_stub_idempotent (query r : String)
    (h1 : '\x27' ∉ query.data) (h2 : '\x22' ∉ query.data)
    (hr : checkOnce query = Except.ok r) :
    checkOnce r = Except.ok r ∧ r = query := by
  have hq : checkOnce query = Except.ok query := by
    rw [checkOnce_eq, escapedQuery_id query h1 h2]
  rw [hq] at hr
  have hrq : query = r := Except.ok.inj hr
  subst hrq
  exact ⟨hq, rfl⟩

theorem querySQLCheckerTool_stub_idempotent_witness :
    checkOnce "SELECT 1" = Except.ok "SELECT 1"
    ∧ ("SELECT 1" : String) = "SELECT 1" :=
  querySQLCheckerTool_stub_idempotent "SELECT 1" "SELECT 1"
    (by decide) (by decide) (by rw [checkOnce_eq]; rfl)

/-- C8 counterexample: on the quote-containing query `SELECT 'a'` the
stubbed checker returns the escaped text, and applying the tool to that
output escapes it again, so the second application differs from the
first. -/
theorem querySQLCheckerTool_stub_idempotent_cex :
    checkOnce "SELECT \x27a\x27" = Except.ok "SELECT \\\x27a\\\x27"
    ∧ checkOnce "SELECT \\\x27a\\\x27" ≠ Except.ok "SELECT \\\x27a\\\x27" := by
  constructor
  · rw [checkOnce_eq]
    rfl
  · rw [checkOnce_eq]
    decide

theorem pyReplaceDQ_mem (c : Char) (hc : ¬ c = '\x22') :
    ∀ l : List Char, c ∈ l → c ∈ pyReplaceDQ l := by
  intro l
  induction l with
  | nil => intro h; exact absurd h (List.not_mem_nil c)
  | cons a r ih =>
    intro h
    by_cases ha : a = '\x22'
    · subst ha
      rw [pyReplaceDQ_dq]
      rcases List.mem_cons.mp h with h | h
      · exact absurd h hc
      · exact List.mem_cons_of_mem _ (List.mem_cons_of_mem _ (ih h))
    · rw [pyReplaceDQ_ne a r ha]
      rcases List.mem_cons.mp h with h | h
      · exact h ▸ List.mem_cons_self a _
      · exact List.mem_cons_of_mem a (ih h)

theorem pyReplaceSQ_mem (c : Char) (hc : ¬ c = '\x27') :
    ∀ l : List Char, c ∈ l → c ∈ pyReplaceSQ l := by
  intro l
  induction l with
  | nil => intro h; exact absurd h (List.not_mem_nil c)
  | cons a r ih =>
    intro h
    by_cases ha : a = '\x27'
    · subst ha
      rw [pyReplaceSQ_sq]
      rcases List.mem_cons.mp h with h | h
      · exact absurd h hc
      · exact List.mem_cons_of_mem _ (List.mem_cons_of_mem _ (ih h))
    · rw [pyReplaceSQ_ne a r ha]
      rcases List.mem_cons.mp h with h | h
      · exact h ▸ List.mem_cons_self a _
      · exact List.mem_cons_of_mem a (ih h)

/-- C10 (amended): for any input query containing a curly brace, the
prompt construction does NOT raise: Python str.format never rescans
substituted argument values, so the brace passes verbatim through the
escaping and formatting into the prompt, and the tool issues exactly the
one completion request built from that prompt. -/
theorem querySQLCheckerTool_braces (conn : CortexConn) (query : String)
    (hb : '\x7b' ∈ query.data ∨ '\x7d' ∈ query.data) :
    (QuerySQLCheckerTool.run conn query).2
      = [cortexQueryOf (QuerySQLCheckerTool.promptOf query)]
    ∧ ('\x7b' ∈ query.data → '\x7b' ∈ (QuerySQLCheckerTool.promptOf query).data)
    ∧ ('\x7d' ∈ query.data → '\x7d' ∈ (QuerySQLCheckerTool.promptOf query).data) := by
  refine ⟨?_, ?_, ?_⟩
  · rw [checkerRun_eq]
    cases conn.readSql (cortexQueryOf (QuerySQLCheckerTool.promptOf query)) <;> rfl
  · intro hmem
    rw [promptOf_data]
    refine List.mem_append_right _ (List.mem_append_left _ ?_)
    rw [escapedQuery_data]
    exact pyReplaceSQ_mem _ (by decide) _ (pyReplaceDQ_mem _ (by decide) _ hmem)
  · intro hmem
    rw [promptOf_data]
    refine List.mem_append_right _ (List.mem_append_left _ ?_)
    rw [escapedQuery_data]
    exact pyReplaceSQ_mem _ (by decide) _ (pyReplaceDQ_mem _ (by decide) _ hmem)

theorem querySQLCheckerTool_braces_witness :
    (QuerySQLCheckerTool.run cortexConnOk "a\x7bb").2
      = [cortexQueryOf (QuerySQLCheckerTool.promptOf "a\x7bb")]
    ∧ ('\x7b' ∈ ("a\x7bb" : String).data
        → '\x7b' ∈ (QuerySQLCheckerTool.promptOf "a\x7bb").data)
    ∧ ('\x7d' ∈ ("a\x7bb" : String).data
        → '\x7d' ∈ (QuerySQLCheckerTool.promptOf "a\x7bb").data) :=
  querySQLCheckerTool_braces cortexConnOk "a\x7bb" (Or.inl (by decide))

/-- C10 counterexample: on a brace-containing input the tool does not
fail before issuing the completion request; it issues the request and
returns the endpoint response. -/
theorem querySQLCheckerTool_braces_cex :
    (QuerySQLCheckerTool.run cortexConnOk "SELECT \x7bx\x7d FROM t").1
      = Except.ok "OK"
    ∧ (QuerySQLCheckerTool.run cortexConnOk "SELECT \x7bx\x7d FROM t").2
      = [cortexQueryOf (QuerySQLCheckerTool.promptOf "SELECT \x7bx\x7d FROM t")] := by
  constructor
  · rw [checkerRun_eq]
    rfl
  · rw [checkerRun_eq]
    rfl

/-- The names src/Agent.py binds at module level through its import
statements (lines 1-9); pandas is not among them, although
`SnowflakeCortexLLM._call` evaluates `pd.read_sql`. -/
def agentImportedNames : List String :=
  ["logging", "Dict", "Any", "List", "Optional", "AgentExecutor",
   "initialize_agent", "LLM", "ChatPromptTemplate", "MessagesPlaceholder",
   "Tool", "LLMChain", "PromptTemplate", "AgentToolkit"]

/-- `SnowflakeCortexLLM._call` (src/Agent.py lines 18-23): build the
Cortex completion request for the prompt and evaluate
`pd.read_sql(query, self.conn)`, returning `result.iloc[0, 0]` — but the
name `pd` resolves only if the module imported pandas, and src/Agent.py
does not, so Python raises a NameError before any query is issued. The
embedding returns the outcome together with the list of queries actually
issued to the connection. -/
def SnowflakeCortexLLM.call (conn : CortexConn) (prompt : String) :
    Except String String × List String :=
  if agentImportedNames.contains "pd" then
    match conn.readSql (cortexQueryOf prompt) with
    | Except.error e => (Except.error e, [cortexQueryOf prompt])
    | Except.ok result => (iloc00 result, [cortexQueryOf prompt])
  else
    (Except.error "NameError: name \x27pd\x27 is not defined", [])

/-- C4 (code bug): the Completion Client is meant to obtain one text
response by issuing exactly one templated query through the connection,
but src/Agent.py never imports pandas, so for every prompt the call
raises a NameError and issues no query at all. -/
theorem snowflakeCortexLLM_call_name_error (conn : CortexConn) (prompt : String) :
    SnowflakeCortexLLM.call conn prompt
      = (Except.error "NameError: name \x27pd\x27 is not defined", []) := rfl
